import Mathlib

/-!
Verification of the tfl-api repository (src/main.rs, src/tfl.rs): a shallow
embedding of its data model, cache, fetch orchestration and view-building
functions, together with theorems settling the specification claims.

Modelling conventions:
* Rust `String` is Lean `String`; the standard-library string operations the
  code calls (`to_lowercase`, `trim`, `split(',')`) are embedded char-wise
  below (ASCII-level, which covers all inputs considered here).
* `std::time::Instant` is a `Nat` time-stamp; `elapsed()` at query instant
  `now` is the (saturating) `now - last_fetch`, matching monotone instants.
* `i64` / `i32` are `Int`; Rust `i64` division `/` truncates toward zero and
  is embedded as `Int.tdiv`.
* Fallible operations return `Except`; the HTTP transport and the serde JSON
  decoder are external collaborators and enter as explicit parameters
  (a transport outcome, and a decoding function `String → Except String _`).
* Mutex poisoning (the `CACHE_LOCK_ERROR` path) is not modelled: the
  embedding is sequential, so the lock is never poisoned.
* The number of upstream HTTP calls performed by an orchestrator invocation
  is made explicit as the `upstream_calls` field of its output.
-/

namespace TflApi

/-! ### Char-level model of the Rust string operations used by the code -/

/-- Rust `str::to_lowercase` (ASCII-level): lower-case every character. -/
def strLower (s : String) : String := ⟨s.data.map Char.toLower⟩

/-- Drop leading and trailing whitespace from a character list. -/
def listTrim (l : List Char) : List Char :=
  ((l.dropWhile Char.isWhitespace).reverse.dropWhile Char.isWhitespace).reverse

/-- Rust `str::trim`: remove leading and trailing whitespace. -/
def strTrim (s : String) : String := ⟨listTrim s.data⟩

/-- Rust `str::split(',')` on a character list: the (possibly empty)
segments between commas.  Splitting the empty list yields one empty
segment, exactly as in Rust. -/
def splitCommaList : List Char → List (List Char)
  | [] => [[]]
  | c :: rest =>
    if c = ',' then [] :: splitCommaList rest
    else
      match splitCommaList rest with
      | [] => [[c]]
      | t :: ts => (c :: t) :: ts

/-- Rust `str::split(',')` collected into a vector of strings. -/
def splitComma (s : String) : List String :=
  (splitCommaList s.data).map String.mk

/-! ### Data model (src/tfl.rs) -/

/-- The nested server-side countdown bookkeeping record of an Arrival
(struct `Timing` in src/tfl.rs); opaque to this system. -/
structure Timing where
  countdown_server_adjustment : String
  source : String
  insert : String
  read : String
  sent : String
  received : String
deriving DecidableEq, Inhabited

/-- One predicted vehicle arrival at the stop (struct `Arrival` in
src/tfl.rs).  Field order and names follow the Rust struct; `i32`/`i64`
fields are `Int`. -/
structure Arrival where
  id : String
  operation_type : Int
  vehicle_id : String
  naptan_id : String
  station_name : String
  line_id : String
  line_name : String
  platform_name : String
  direction : String
  bearing : String
  trip_id : String
  base_version : String
  destination_naptan_id : String
  destination_name : String
  timestamp : String
  time_to_station : Int
  current_location : String
  towards : String
  expected_arrival : String
  time_to_live : String
  mode_name : String
  timing : Timing
deriving DecidableEq, Inhabited

/-- The upstream-client failure type (enum `TflError` in src/tfl.rs).
`UpstreamError` carries the non-success HTTP status code and the raw body
text; `ParseError` is built (via `#[from] reqwest::Error`) from ANY
`reqwest::Error`, i.e. both from transport failures of `send()` and from
body-decoding failures of `resp.json()`; the underlying cause is carried
as its string rendering. -/
inductive TflError where
  | UpstreamError (code : Nat) (text : String)
  | ParseError (cause : String)
deriving DecidableEq

/-- Outcome of the `client.get(url).send()` transport call: either a
`reqwest::Error` (connection failure, timeout, ...) rendered as a string,
or an HTTP response with a status code and a body. -/
inductive SendResult where
  | failure (cause : String)
  | response (status : Nat) (body : String)
deriving DecidableEq

/-- Rust `StatusCode::is_success`: 2xx. -/
def status_is_success (s : Nat) : Bool := 200 ≤ s && s < 300

/-- Function `fetch_arrivals` of src/tfl.rs.  The transport outcome and the
serde JSON decoder are passed explicitly.  The `?` on `send()` converts a
transport `reqwest::Error` into `TflError::ParseError`; a non-success
status becomes `UpstreamError` with the body text; a body that does not
decode becomes `ParseError`; otherwise the decoded list is returned
verbatim. -/
def fetch_arrivals (send : SendResult)
    (decode : String → Except String (List Arrival)) :
    Except TflError (List Arrival) :=
  match send with
  | SendResult.failure cause => Except.error (TflError.ParseError cause)
  | SendResult.response code body =>
    if status_is_success code then
      match decode body with
      | Except.error e => Except.error (TflError.ParseError e)
      | Except.ok arrivals => Except.ok arrivals
    else
      Except.error (TflError.UpstreamError code body)

/-! ### Error envelope and cache (src/main.rs) -/

/-- Struct `ErrorResponse` of src/main.rs: machine-readable kind,
human-readable message, optional details. -/
structure ErrorResponse where
  error : String
  message : String
  details : Option String
deriving DecidableEq

/-- Impl `From<tfl::TflError> for ErrorResponse` of src/main.rs. -/
def ErrorResponse.ofTflError : TflError → ErrorResponse
  | TflError.UpstreamError code text =>
    { error := "TFL_UPSTREAM_ERROR"
      message := "TfL returned HTTP " ++ toString code
      details := some text }
  | TflError.ParseError e =>
    { error := "TFL_PARSE_ERROR"
      message := "Failed to parse TfL response JSON"
      details := some e }

/-- Impl `From<reqwest::Error> for ErrorResponse` of src/main.rs: every
`reqwest::Error` (transport failures included) is rendered with the
parse-failure kind. -/
def ErrorResponse.ofReqwestError (err : String) : ErrorResponse :=
  { error := "TFL_PARSE_ERROR"
    message := "Failed to parse TfL response JSON"
    details := some err }

/-- Struct `ApiConfig` of src/main.rs (cache_ttl in the same time unit as
the `Nat` instants of the model). -/
structure ApiConfig where
  stop_id : String
  app_id : Option String
  app_key : Option String
  cache_ttl : Nat
deriving DecidableEq

/-- Struct `Cache` of src/main.rs: capture instant and the arrival list
fetched at that instant. -/
structure Cache where
  last_fetch : Nat
  data : List Arrival
deriving DecidableEq

/-- Function `check_arrivals_cache` of src/main.rs (read-if-fresh): the
cached list if an entry exists and `elapsed() < cache_ttl`, i.e.
`now - last_fetch < cache_ttl`; otherwise a miss (`none`). -/
def check_arrivals_cache (cache : Option Cache) (cache_ttl now : Nat) :
    Option (List Arrival) :=
  match cache with
  | some c => if now - c.last_fetch < cache_ttl then some c.data else none
  | none => none

/-- Function `update_arrivals_cache` of src/main.rs (replace): overwrite
the slot wholesale with a new entry captured at the current instant. -/
def update_arrivals_cache (arrivals : List Arrival) (now : Nat) : Option Cache :=
  some { last_fetch := now, data := arrivals }

/-- Result of one `fetch_arrivals_from_tfl` invocation: the returned value
or error, the cache slot after the call, and the number of upstream HTTP
calls performed during the call. -/
structure FetchOutput where
  result : Except (Nat × ErrorResponse) (List Arrival)
  cache : Option Cache
  upstream_calls : Nat

/-- Function `fetch_arrivals_from_tfl` of src/main.rs (the orchestrator).
`now` is the instant of the cache check, `fetch_now` the instant at which
a successful refetch is recorded, `upstream` the outcome the upstream
client would produce if called.  On a hit the cached list is returned with
no upstream call; on a miss the upstream client is called once: a failure
is propagated as HTTP 502 with the converted envelope and the cache is
left untouched, a success replaces the cache and is returned. -/
def fetch_arrivals_from_tfl (cache : Option Cache) (cache_ttl : Nat)
    (now fetch_now : Nat) (upstream : Except TflError (List Arrival)) :
    FetchOutput :=
  match check_arrivals_cache cache cache_ttl now with
  | some cached => { result := Except.ok cached, cache := cache, upstream_calls := 0 }
  | none =>
    match upstream with
    | Except.error e =>
      { result := Except.error (502, ErrorResponse.ofTflError e)
        cache := cache
        upstream_calls := 1 }
    | Except.ok arrivals =>
      { result := Except.ok arrivals
        cache := update_arrivals_cache arrivals fetch_now
        upstream_calls := 1 }

/-! ### View building (src/main.rs) -/

/-- Function `filter_arrivals_by_route` of src/main.rs: lower-case the
routes string, split it on commas (the components are NOT trimmed), and
keep the arrivals whose trimmed, lower-cased line name equals one of the
components. -/
def filter_arrivals_by_route (arrivals : List Arrival) (routes : String) :
    List Arrival :=
  let routes_lc := strLower routes
  let routes_split := splitComma routes_lc
  arrivals.filter (fun a => routes_split.any (fun r => strLower (strTrim a.line_name) == r))

/-- The optional-filter step shared by both handlers: filter when a routes
parameter is present, keep everything otherwise. -/
def apply_route_filter (routes : Option String) (arrivals : List Arrival) :
    List Arrival :=
  match routes with
  | some routes_str => filter_arrivals_by_route arrivals routes_str
  | none => arrivals

/-- The sort key order used by `sort_by_key(|a| a.time_to_station)`. -/
def by_time_to_station (a b : Arrival) : Prop :=
  a.time_to_station ≤ b.time_to_station

instance : DecidableRel by_time_to_station :=
  fun a b => Int.decLe a.time_to_station b.time_to_station

instance : IsTotal Arrival by_time_to_station :=
  ⟨fun a b => Int.le_total a.time_to_station b.time_to_station⟩

instance : IsTrans Arrival by_time_to_station :=
  ⟨fun _ _ _ => Int.le_trans⟩

/-- Rust `Vec::sort_by_key(|a| a.time_to_station)`: a stable sort by
time-to-station, embedded extensionally as stable insertion sort (a stable
sort's output is uniquely determined by the input, so any stable sorting
algorithm is extensionally the Rust one). -/
def sort_by_time_to_station (l : List Arrival) : List Arrival :=
  List.insertionSort by_time_to_station l

/-- Handler `next_bus` of src/main.rs (GET /next-bus?routes=...):
fetch (through the cache), optionally filter, answer 204 with the
NO_ARRIVALS envelope when the filtered list is empty, otherwise the
sorted list. -/
def next_bus (routes : Option String) (config : ApiConfig)
    (cache : Option Cache) (now fetch_now : Nat)
    (upstream : Except TflError (List Arrival)) :
    Except (Nat × ErrorResponse) (List Arrival) :=
  match (fetch_arrivals_from_tfl cache config.cache_ttl now fetch_now upstream).result with
  | Except.error e => Except.error e
  | Except.ok arrivals =>
    let filtered := apply_route_filter routes arrivals
    if filtered.isEmpty then
      Except.error (204,
        { error := "NO_ARRIVALS"
          message := "No upcoming buses found for stop " ++ config.stop_id ++
            (match routes with
             | some r => " on route(s) " ++ r
             | none => "")
          details := none })
    else
      Except.ok (sort_by_time_to_station filtered)

/-- One entry of the summary view (struct `SummaryBus` of src/main.rs). -/
structure SummaryBus where
  route : String
  destination : String
  minutes : Int
deriving DecidableEq

/-- The summary payload (struct `SummaryResponse` of src/main.rs). -/
structure SummaryResponse where
  stop_id : String
  stop_name : String
  last_updated : String
  services : List SummaryBus
deriving DecidableEq

/-- The per-arrival summary projection of `next_bus_summary`:
`minutes = (a.time_to_station / 60).max(0)` with Rust `i64` division,
which truncates toward zero (`Int.tdiv`). -/
def summary_bus_of (a : Arrival) : SummaryBus :=
  { route := a.line_name
    destination := a.destination_name
    minutes := max (Int.tdiv a.time_to_station 60) 0 }

/-- Handler `next_bus_summary` of src/main.rs
(GET /next-bus/summary?routes=...&limit=...): fetch (through the cache),
optionally filter; when the filtered list is empty answer successfully
with the configured stop id, stop name "NA", the current RFC3339 clock
string and no services; otherwise sort, take at most `limit` (default
100) entries projected through `summary_bus_of`, and take the top-level
fields from the first (soonest) arrival. -/
def next_bus_summary (routes : Option String) (limit : Option Nat)
    (config : ApiConfig) (cache : Option Cache) (now fetch_now : Nat)
    (now_rfc3339 : String) (upstream : Except TflError (List Arrival)) :
    Except (Nat × ErrorResponse) SummaryResponse :=
  match (fetch_arrivals_from_tfl cache config.cache_ttl now fetch_now upstream).result with
  | Except.error e => Except.error e
  | Except.ok arrivals =>
    let filtered := apply_route_filter routes arrivals
    if filtered.isEmpty then
      Except.ok
        { stop_id := config.stop_id
          stop_name := "NA"
          last_updated := now_rfc3339
          services := [] }
    else
      let sorted := sort_by_time_to_station filtered
      let lim := limit.getD 100
      let services := (sorted.take lim).map summary_bus_of
      let first := sorted.headI
      Except.ok
        { stop_id := first.naptan_id
          stop_name := first.station_name
          last_updated := first.timestamp
          services := services }

/-! ### Concrete sample data for witnesses -/

/-- An all-empty timing record for sample arrivals. -/
def sampleTiming : Timing := ⟨"", "", "", "", "", ""⟩

/-- A sample arrival with a given line name and time-to-station; the other
fields are fixed sample values. -/
def mkArrival (line : String) (tts : Int) : Arrival :=
  { id := "a1", operation_type := 1, vehicle_id := "V1"
    naptan_id := "490000001A", station_name := "Stop A"
    line_id := "25", line_name := line, platform_name := "P"
    direction := "inbound", bearing := "N", trip_id := "T", base_version := "1"
    destination_naptan_id := "490000002B", destination_name := "Ilford"
    timestamp := "2024-01-01T00:00:00Z", time_to_station := tts
    current_location := "loc", towards := "X"
    expected_arrival := "2024-01-01T00:05:00Z"
    time_to_live := "2024-01-01T00:06:00Z", mode_name := "bus"
    timing := sampleTiming }

/-- A sample configuration. -/
def sampleConfig : ApiConfig :=
  { stop_id := "490008660N", app_id := none, app_key := none, cache_ttl := 10 }

/-- A decoder that rejects every body, for concrete parse-failure runs. -/
def decode_fail : String → Except String (List Arrival) :=
  fun _ => Except.error "invalid JSON"

/-! ### Helper lemmas -/

/-- Unfolding of the route filter to a plain `List.filter`. -/
theorem filter_arrivals_by_route_eq (arrivals : List Arrival) (routes : String) :
    filter_arrivals_by_route arrivals routes
      = arrivals.filter (fun a =>
          (splitComma (strLower routes)).any
            (fun r => strLower (strTrim a.line_name) == r)) := rfl

/-- Lower-casing produces the empty string only from the empty string. -/
theorem strLower_eq_empty_iff (s : String) : strLower s = "" ↔ s = "" := by
  cases s with
  | mk data =>
    constructor
    · intro h
      have hd : data.map Char.toLower = [] := congrArg String.data h
      have : data = [] := List.map_eq_nil_iff.mp hd
      rw [this]
    · intro h
      rw [h]
      decide

/-- Clamping to a minimum of 0 erases the difference between Rust's
truncating `i64` division by 60 and the flooring division by 60. -/
theorem max_tdiv_60_eq_max_fdiv_60 (n : Int) :
    max (Int.tdiv n 60) 0 = max (Int.fdiv n 60) 0 := by
  match n with
  | Int.ofNat 0 => rfl
  | Int.ofNat (m+1) =>
    have h1 : Int.tdiv (Int.ofNat (m+1)) 60 = Int.ofNat ((m+1) / 60) := rfl
    have h2 : Int.fdiv (Int.ofNat (m+1)) 60 = Int.ofNat ((m+1) / 60) := rfl
    rw [h1, h2]
  | Int.negSucc m =>
    have h1 : Int.tdiv (Int.negSucc m) 60 = -Int.ofNat ((m+1) / 60) := rfl
    have h2 : Int.fdiv (Int.negSucc m) 60 = Int.negSucc (m / 60) := rfl
    rw [h1, h2, Int.negSucc_eq, Int.ofNat_eq_natCast]
    omega

/-- Inserting an arrival into a list commutes with filtering on a fixed
time-to-station key: the new arrival lands in front of the equal-key block
(the elements it hops over have strictly smaller keys). -/
theorem filter_orderedInsert_key (k : Int) (a : Arrival) (s : List Arrival) :
    (List.orderedInsert by_time_to_station a s).filter
        (fun x => x.time_to_station == k)
      = if a.time_to_station == k
        then a :: s.filter (fun x => x.time_to_station == k)
        else s.filter (fun x => x.time_to_station == k) := by
  induction s with
  | nil =>
    show [a].filter _ = _
    rw [List.filter_cons]
  | cons b t ih =>
    by_cases hab : by_time_to_station a b
    · rw [List.orderedInsert_of_le _ _ hab, List.filter_cons]
    · have hins : List.orderedInsert by_time_to_station a (b :: t)
          = b :: List.orderedInsert by_time_to_station a t := by
        show (if by_time_to_station a b then a :: b :: t
              else b :: List.orderedInsert by_time_to_station a t) = _
        rw [if_neg hab]
      rw [hins, List.filter_cons, List.filter_cons]
      have hba : b.time_to_station < a.time_to_station := by
        have := hab
        unfold by_time_to_station at this
        omega
      by_cases hk : (a.time_to_station == k) = true
      · have hbk : (b.time_to_station == k) = false := by
          have hak : a.time_to_station = k := beq_iff_eq.mp hk
          apply beq_eq_false_iff_ne.mpr
          omega
        rw [hbk, if_pos hk, ih, if_pos hk]
        simp only [Bool.false_eq_true, if_false]
      · rw [ih, if_neg hk, if_neg hk]

/-- Stability of the embedded sort: for every time-to-station value, the
arrivals with that value appear in the sorted list in the same order as in
the input. -/
theorem filter_sort_by_time_to_station (k : Int) (l : List Arrival) :
    (sort_by_time_to_station l).filter (fun x => x.time_to_station == k)
      = l.filter (fun x => x.time_to_station == k) := by
  induction l with
  | nil => rfl
  | cons a t ih =>
    unfold sort_by_time_to_station at ih
    show (List.orderedInsert by_time_to_station a
        (List.insertionSort by_time_to_station t)).filter _ = _
    rw [filter_orderedInsert_key, List.filter_cons]
    by_cases hk : (a.time_to_station == k) = true
    · rw [if_pos hk, if_pos hk, ih]
    · rw [if_neg hk, if_neg hk, ih]

/-- The embedded sort permutes its input (so it never drops arrivals). -/
theorem sort_by_time_to_station_perm (l : List Arrival) :
    List.Perm (sort_by_time_to_station l) l :=
  List.perm_insertionSort by_time_to_station l

/-! ### Claim theorems -/

/-- C1, counterexample: with the routes parameter "25, N25" the second
component is " n25" after lower-casing; it is never trimmed, so an arrival
on line "N25" — whose trimmed, lower-cased line name "n25" equals the
trimmed, lower-cased token — is nevertheless dropped, and the filter
returns the empty list.  The claim, which trims the tokens, says the
arrival is kept. -/
theorem c1_counterexample :
    splitComma (strLower "25, N25") = ["25", " n25"] ∧
    strLower (strTrim ((mkArrival "N25" 100).line_name))
      = strLower (strTrim " N25") ∧
    filter_arrivals_by_route [mkArrival "N25" 100] "25, N25" = [] :=
  ⟨rfl, rfl, rfl⟩

/-- C1 (amended): the route filter keeps exactly those Arrivals whose line
name, trimmed and lower-cased, equals one of the comma-separated
components of the lower-cased routes string, where the components are NOT
trimmed. -/
theorem c1_route_filter_membership (arrivals : List Arrival) (routes : String)
    (a : Arrival) :
    a ∈ filter_arrivals_by_route arrivals routes ↔
      a ∈ arrivals ∧
        ∃ r ∈ splitComma (strLower routes), strLower (strTrim a.line_name) = r := by
  rw [filter_arrivals_by_route_eq, List.mem_filter]
  simp [List.any_eq_true]

/-- C2, counterexample: a transport failure of `send()` (e.g. a timeout)
is converted by the error-propagation operator into `TflError::ParseError`
— the same failure kind a non-decoding body produces — and its envelope
kind string "TFL_PARSE_ERROR" is identical to the one produced for a
decode failure.  There is no distinct upstream-unreachable kind. -/
theorem c2_counterexample :
    fetch_arrivals (SendResult.failure "connection timed out") decode_fail
      = Except.error (TflError.ParseError "connection timed out") ∧
    fetch_arrivals (SendResult.response 200 "not json") decode_fail
      = Except.error (TflError.ParseError "invalid JSON") ∧
    (ErrorResponse.ofTflError (TflError.ParseError "connection timed out")).error
      = (ErrorResponse.ofTflError (TflError.ParseError "invalid JSON")).error :=
  ⟨rfl, rfl, rfl⟩

/-- C2 (amended): every transport failure of the upstream client is
signalled via the SAME `ParseError` kind that decode failures use, still
carrying the underlying cause; the resulting envelope has kind
"TFL_PARSE_ERROR" and the cause in its details.  Only a non-success HTTP
status gets the distinct "TFL_UPSTREAM_ERROR" kind. -/
theorem c2_transport_failure_parse_kind (cause : String)
    (decode : String → Except String (List Arrival)) :
    fetch_arrivals (SendResult.failure cause) decode
      = Except.error (TflError.ParseError cause) ∧
    ErrorResponse.ofTflError (TflError.ParseError cause)
      = { error := "TFL_PARSE_ERROR"
          message := "Failed to parse TfL response JSON"
          details := some cause } :=
  ⟨rfl, rfl⟩

/-- C3: after a replace at capture instant T with list L, a read-if-fresh
at any query instant t ≥ T returns L exactly when t is within the
freshness window (t < T + ttl) and misses at or after T + ttl; an empty
slot always misses. -/
theorem c3_read_if_fresh_window (T ttl t : Nat) (L : List Arrival)
    (h : T ≤ t) :
    (t < T + ttl →
      check_arrivals_cache (update_arrivals_cache L T) ttl t = some L) ∧
    (T + ttl ≤ t →
      check_arrivals_cache (update_arrivals_cache L T) ttl t = none) ∧
    check_arrivals_cache none ttl t = none := by
  refine ⟨fun hlt => ?_, fun hge => ?_, rfl⟩
  · show (if t - T < ttl then some L else none) = some L
    rw [if_pos (by omega)]
  · show (if t - T < ttl then some L else none) = none
    rw [if_neg (by omega)]

/-- Witness for C3 at T = 0, ttl = 10, t = 3. -/
theorem c3_witness :
    (0 : Nat) ≤ 3 ∧
    check_arrivals_cache (update_arrivals_cache [] 0) 10 3 = some [] :=
  ⟨by decide, (c3_read_if_fresh_window 0 10 3 [] (by decide)).1 (by decide)⟩

/-- C4: when read-if-fresh reports a hit, the orchestrator returns the
cached list, leaves the cache slot unchanged, and performs zero upstream
calls; consequently a second request arriving within the freshness window
of a successful fetch (which left the slot replaced at the fetch instant)
also performs zero upstream calls. -/
theorem c4_cache_hit_no_upstream
    (cache : Option Cache) (cache_ttl now fetch_now : Nat)
    (upstream : Except TflError (List Arrival)) (L : List Arrival)
    (h : check_arrivals_cache cache cache_ttl now = some L) :
    fetch_arrivals_from_tfl cache cache_ttl now fetch_now upstream
      = { result := Except.ok L, cache := cache, upstream_calls := 0 } ∧
    ∀ (A : List Arrival) (t2 t3 : Nat)
      (up2 : Except TflError (List Arrival)),
      t2 - fetch_now < cache_ttl →
      fetch_arrivals_from_tfl (update_arrivals_cache A fetch_now) cache_ttl
          t2 t3 up2
        = { result := Except.ok A
            cache := update_arrivals_cache A fetch_now
            upstream_calls := 0 } := by
  constructor
  · unfold fetch_arrivals_from_tfl
    rw [h]
  · intro A t2 t3 up2 hlt
    have hc : check_arrivals_cache (update_arrivals_cache A fetch_now)
        cache_ttl t2 = some A := by
      show (if t2 - fetch_now < cache_ttl then some A else none) = some A
      rw [if_pos hlt]
    unfold fetch_arrivals_from_tfl
    rw [hc]

/-- Witness for C4: a fresh entry captured at 0, read at 3 (ttl 10), and a
second request at 5 after a fetch recorded at 4. -/
theorem c4_witness :
    fetch_arrivals_from_tfl (some { last_fetch := 0, data := [] }) 10 3 4
        (Except.error (TflError.ParseError "x"))
      = { result := Except.ok [], cache := some { last_fetch := 0, data := [] }
          upstream_calls := 0 } ∧
    fetch_arrivals_from_tfl (update_arrivals_cache [mkArrival "25" 50] 4) 10 5 6
        (Except.error (TflError.ParseError "x"))
      = { result := Except.ok [mkArrival "25" 50]
          cache := update_arrivals_cache [mkArrival "25" 50] 4
          upstream_calls := 0 } :=
  ⟨(c4_cache_hit_no_upstream (some { last_fetch := 0, data := [] }) 10 3 4
      (Except.error (TflError.ParseError "x")) [] rfl).1,
   (c4_cache_hit_no_upstream (some { last_fetch := 0, data := [] }) 10 3 4
      (Except.error (TflError.ParseError "x")) [] rfl).2
      [mkArrival "25" 50] 5 6 (Except.error (TflError.ParseError "x"))
      (by decide)⟩

/-- C5: on a cache miss, an upstream failure is propagated to the caller
(as HTTP 502 with the envelope obtained from the error by the `From`
conversion), exactly one upstream call is made, and the cache slot —
empty or stale — is left exactly as it was: the failed refetch neither
replaces nor evicts it, and no stale data is served (the result is the
error, not a list). -/
theorem c5_upstream_failure_preserves_cache
    (cache : Option Cache) (cache_ttl now fetch_now : Nat) (e : TflError)
    (h : check_arrivals_cache cache cache_ttl now = none) :
    fetch_arrivals_from_tfl cache cache_ttl now fetch_now (Except.error e)
      = { result := Except.error (502, ErrorResponse.ofTflError e)
          cache := cache
          upstream_calls := 1 } := by
  unfold fetch_arrivals_from_tfl
  rw [h]

/-- Characterization of the plain handler when the orchestrator produced a
list: filter, then 204/NO_ARRIVALS on empty, else the sorted list. -/
theorem next_bus_fetch_ok (routes : Option String) (config : ApiConfig)
    (cache : Option Cache) (now fetch_now : Nat)
    (upstream : Except TflError (List Arrival)) (arrivals : List Arrival)
    (h : (fetch_arrivals_from_tfl cache config.cache_ttl now fetch_now upstream).result
        = Except.ok arrivals) :
    next_bus routes config cache now fetch_now upstream
      = if (apply_route_filter routes arrivals).isEmpty then
          Except.error (204,
            { error := "NO_ARRIVALS"
              message := "No upcoming buses found for stop " ++ config.stop_id ++
                (match routes with
                 | some r => " on route(s) " ++ r
                 | none => "")
              details := none })
        else
          Except.ok (sort_by_time_to_station (apply_route_filter routes arrivals)) := by
  unfold next_bus
  rw [h]

/-- Characterization of the plain handler when the orchestrator failed. -/
theorem next_bus_fetch_error (routes : Option String) (config : ApiConfig)
    (cache : Option Cache) (now fetch_now : Nat)
    (upstream : Except TflError (List Arrival)) (e : Nat × ErrorResponse)
    (h : (fetch_arrivals_from_tfl cache config.cache_ttl now fetch_now upstream).result
        = Except.error e) :
    next_bus routes config cache now fetch_now upstream = Except.error e := by
  unfold next_bus
  rw [h]

/-- Characterization of the summary handler when the orchestrator produced
a list: filter, then an empty-success summary with the configured stop id
on empty, else the projected summary taken from the sorted list. -/
theorem next_bus_summary_fetch_ok (routes : Option String) (limit : Option Nat)
    (config : ApiConfig) (cache : Option Cache) (now fetch_now : Nat)
    (now_rfc : String) (upstream : Except TflError (List Arrival))
    (arrivals : List Arrival)
    (h : (fetch_arrivals_from_tfl cache config.cache_ttl now fetch_now upstream).result
        = Except.ok arrivals) :
    next_bus_summary routes limit config cache now fetch_now now_rfc upstream
      = if (apply_route_filter routes arrivals).isEmpty then
          Except.ok
            { stop_id := config.stop_id
              stop_name := "NA"
              last_updated := now_rfc
              services := [] }
        else
          Except.ok
            { stop_id := (sort_by_time_to_station
                (apply_route_filter routes arrivals)).headI.naptan_id
              stop_name := (sort_by_time_to_station
                (apply_route_filter routes arrivals)).headI.station_name
              last_updated := (sort_by_time_to_station
                (apply_route_filter routes arrivals)).headI.timestamp
              services := ((sort_by_time_to_station
                (apply_route_filter routes arrivals)).take (limit.getD 100)).map
                  summary_bus_of } := by
  unfold next_bus_summary
  rw [h]

/-- Characterization of the summary handler when the orchestrator failed. -/
theorem next_bus_summary_fetch_error (routes : Option String) (limit : Option Nat)
    (config : ApiConfig) (cache : Option Cache) (now fetch_now : Nat)
    (now_rfc : String) (upstream : Except TflError (List Arrival))
    (e : Nat × ErrorResponse)
    (h : (fetch_arrivals_from_tfl cache config.cache_ttl now fetch_now upstream).result
        = Except.error e) :
    next_bus_summary routes limit config cache now fetch_now now_rfc upstream
      = Except.error e := by
  unfold next_bus_summary
  rw [h]

/-- Witness for C5: a stale entry (captured at 0, read at 15, ttl 10)
survives a failed refetch untouched. -/
theorem c5_witness :
    fetch_arrivals_from_tfl (some { last_fetch := 0, data := [mkArrival "25" 50] })
        10 15 16 (Except.error (TflError.UpstreamError 503 "maintenance"))
      = { result := Except.error (502,
            ErrorResponse.ofTflError (TflError.UpstreamError 503 "maintenance"))
          cache := some { last_fetch := 0, data := [mkArrival "25" 50] }
          upstream_calls := 1 } :=
  c5_upstream_failure_preserves_cache
    (some { last_fetch := 0, data := [mkArrival "25" 50] }) 10 15 16
    (TflError.UpstreamError 503 "maintenance") rfl

/-- C6: the sort used by both endpoints is sorted non-decreasing by
time-to-station and stable (arrivals with equal time-to-station keep their
pre-sort relative order), the list returned by the plain endpoint is
exactly this sort of the filtered fetched list, and the summary services
are projected from a prefix of this sort of the filtered fetched list. -/
theorem c6_sorted_stable :
    (∀ l : List Arrival,
      List.Sorted by_time_to_station (sort_by_time_to_station l)) ∧
    (∀ (l : List Arrival) (k : Int),
      (sort_by_time_to_station l).filter (fun x => x.time_to_station == k)
        = l.filter (fun x => x.time_to_station == k)) ∧
    (∀ (routes : Option String) (config : ApiConfig) (cache : Option Cache)
        (now fetch_now : Nat) (upstream : Except TflError (List Arrival))
        (arrivals out : List Arrival),
      (fetch_arrivals_from_tfl cache config.cache_ttl now fetch_now upstream).result
          = Except.ok arrivals →
      next_bus routes config cache now fetch_now upstream = Except.ok out →
      out = sort_by_time_to_station (apply_route_filter routes arrivals)) ∧
    (∀ (routes : Option String) (limit : Option Nat) (config : ApiConfig)
        (cache : Option Cache) (now fetch_now : Nat) (now_rfc : String)
        (upstream : Except TflError (List Arrival))
        (arrivals : List Arrival) (resp : SummaryResponse),
      (fetch_arrivals_from_tfl cache config.cache_ttl now fetch_now upstream).result
          = Except.ok arrivals →
      next_bus_summary routes limit config cache now fetch_now now_rfc upstream
          = Except.ok resp →
      apply_route_filter routes arrivals ≠ [] →
      resp.services
        = ((sort_by_time_to_station (apply_route_filter routes arrivals)).take
            (limit.getD 100)).map summary_bus_of) := by
  refine ⟨?_, ?_, ?_, ?_⟩
  · intro l
    exact List.sorted_insertionSort by_time_to_station l
  · intro l k
    exact filter_sort_by_time_to_station k l
  · intro routes config cache now fetch_now upstream arrivals out h1 h2
    rw [next_bus_fetch_ok routes config cache now fetch_now upstream arrivals h1] at h2
    by_cases he : (apply_route_filter routes arrivals).isEmpty
    · rw [if_pos he] at h2
      exact Except.noConfusion h2
    · rw [if_neg he] at h2
      injection h2 with h3
      exact h3.symm
  · intro routes limit config cache now fetch_now now_rfc upstream arrivals resp h1 h2 hne
    rw [next_bus_summary_fetch_ok routes limit config cache now fetch_now now_rfc
        upstream arrivals h1] at h2
    have he : (apply_route_filter routes arrivals).isEmpty = false := by
      cases hl : apply_route_filter routes arrivals with
      | nil => exact absurd hl hne
      | cons x xs => rfl
    rw [if_neg (by rw [he]; exact Bool.false_ne_true)] at h2
    injection h2 with h3
    rw [← h3]

/-- Witness for C6 on the spec scenario: three arrivals with
time-to-station 500, 50, 200 on lines "25", "25", "N25"; filter "25". -/
theorem c6_witness :
    List.Sorted by_time_to_station (sort_by_time_to_station
      [mkArrival "25" 500, mkArrival "25" 50, mkArrival "N25" 200]) ∧
    [mkArrival "25" 50, mkArrival "25" 500]
      = sort_by_time_to_station (apply_route_filter (some "25")
          [mkArrival "25" 500, mkArrival "25" 50, mkArrival "N25" 200]) :=
  ⟨c6_sorted_stable.1 [mkArrival "25" 500, mkArrival "25" 50, mkArrival "N25" 200],
   c6_sorted_stable.2.2.1 (some "25") sampleConfig none 0 0
     (Except.ok [mkArrival "25" 500, mkArrival "25" 50, mkArrival "N25" 200])
     [mkArrival "25" 500, mkArrival "25" 50, mkArrival "N25" 200]
     [mkArrival "25" 50, mkArrival "25" 500] rfl rfl⟩

/-- C7: when the fetched set is non-empty but the route filter removes
every record, the plain endpoint answers with the distinct NO_ARRIVALS
failure naming the configured stop and the route filter, while the summary
endpoint answers successfully with an empty services list and the
configured stop identifier — the asymmetry between the two endpoints. -/
theorem c7_no_arrivals_asymmetry
    (routes_str : String) (limit : Option Nat) (config : ApiConfig)
    (cache : Option Cache) (now fetch_now : Nat) (now_rfc : String)
    (upstream : Except TflError (List Arrival)) (arrivals : List Arrival)
    (hfetch : (fetch_arrivals_from_tfl cache config.cache_ttl now fetch_now upstream).result
        = Except.ok arrivals)
    (_hne : arrivals ≠ [])
    (hempty : filter_arrivals_by_route arrivals routes_str = []) :
    next_bus (some routes_str) config cache now fetch_now upstream
      = Except.error (204,
          { error := "NO_ARRIVALS"
            message := "No upcoming buses found for stop " ++ config.stop_id
              ++ (" on route(s) " ++ routes_str)
            details := none }) ∧
    next_bus_summary (some routes_str) limit config cache now fetch_now now_rfc upstream
      = Except.ok
          { stop_id := config.stop_id
            stop_name := "NA"
            last_updated := now_rfc
            services := [] } := by
  have he : (apply_route_filter (some routes_str) arrivals).isEmpty = true := by
    show (filter_arrivals_by_route arrivals routes_str).isEmpty = true
    rw [hempty]
    rfl
  constructor
  · rw [next_bus_fetch_ok (some routes_str) config cache now fetch_now upstream
        arrivals hfetch, if_pos he]
  · rw [next_bus_summary_fetch_ok (some routes_str) limit config cache now
        fetch_now now_rfc upstream arrivals hfetch, if_pos he]

/-- Witness for C7: filter "X99" matches nothing in a one-element fetched
set. -/
theorem c7_witness :
    next_bus (some "X99") sampleConfig none 0 0
        (Except.ok [mkArrival "25" 100])
      = Except.error (204,
          { error := "NO_ARRIVALS"
            message := "No upcoming buses found for stop " ++ sampleConfig.stop_id
              ++ (" on route(s) " ++ "X99")
            details := none }) ∧
    next_bus_summary (some "X99") none sampleConfig none 0 0 "now"
        (Except.ok [mkArrival "25" 100])
      = Except.ok
          { stop_id := sampleConfig.stop_id
            stop_name := "NA"
            last_updated := "now"
            services := [] } :=
  c7_no_arrivals_asymmetry "X99" none sampleConfig none 0 0 "now"
    (Except.ok [mkArrival "25" 100]) [mkArrival "25" 100] rfl
    (by decide) rfl

/-- C8: every service of a successful summary has minutes equal to the
floor of time-to-station over 60 clamped to a minimum of 0 — hence never
negative (Rust's truncating division agrees with the floor once clamped). -/
theorem c8_minutes_nonneg_floor
    (routes : Option String) (limit : Option Nat) (config : ApiConfig)
    (cache : Option Cache) (now fetch_now : Nat) (now_rfc : String)
    (upstream : Except TflError (List Arrival)) (resp : SummaryResponse)
    (h : next_bus_summary routes limit config cache now fetch_now now_rfc upstream
        = Except.ok resp) :
    ∀ b ∈ resp.services,
      0 ≤ b.minutes ∧
      ∃ a : Arrival, b = summary_bus_of a ∧
        b.minutes = max (Int.fdiv a.time_to_station 60) 0 := by
  intro b hb
  cases hr : (fetch_arrivals_from_tfl cache config.cache_ttl now fetch_now
      upstream).result with
  | error e =>
    rw [next_bus_summary_fetch_error routes limit config cache now fetch_now
        now_rfc upstream e hr] at h
    exact Except.noConfusion h
  | ok arrivals =>
    rw [next_bus_summary_fetch_ok routes limit config cache now fetch_now
        now_rfc upstream arrivals hr] at h
    by_cases he : (apply_route_filter routes arrivals).isEmpty
    · rw [if_pos he] at h
      injection h with h2
      rw [← h2] at hb
      exact absurd hb (by simp)
    · rw [if_neg he] at h
      injection h with h2
      rw [← h2] at hb
      obtain ⟨a, _, hba⟩ := List.mem_map.mp hb
      refine ⟨?_, a, hba.symm, ?_⟩
      · rw [← hba]
        exact le_max_right _ 0
      · rw [← hba]
        show max (Int.tdiv a.time_to_station 60) 0 = _
        exact max_tdiv_60_eq_max_fdiv_60 a.time_to_station

/-- Witness for C8 on an already-departed vehicle (time-to-station -90):
its minutes field is 0, not negative. -/
theorem c8_witness :
    0 ≤ (SummaryBus.mk "25" "Ilford" 0).minutes ∧
    ∃ a : Arrival, SummaryBus.mk "25" "Ilford" 0 = summary_bus_of a ∧
      (SummaryBus.mk "25" "Ilford" 0).minutes
        = max (Int.fdiv a.time_to_station 60) 0 :=
  c8_minutes_nonneg_floor none none sampleConfig none 0 0 "now"
    (Except.ok [mkArrival "25" (-90)])
    { stop_id := "490000001A"
      stop_name := "Stop A"
      last_updated := "2024-01-01T00:00:00Z"
      services := [SummaryBus.mk "25" "Ilford" 0] }
    (by rfl) (SummaryBus.mk "25" "Ilford" 0) (by decide)

/-- C9: on a non-empty filtered list the summary is built from the sorted,
filtered list: its services are the projections of exactly the first
min(limit, length) entries (limit defaulting to 100), and its top-level
stop identifier, stop name and last-updated timestamp are the first
(soonest) surviving Arrival's own naptan-id, station-name and timestamp
fields. -/
theorem c9_summary_projection
    (routes : Option String) (limit : Option Nat) (config : ApiConfig)
    (cache : Option Cache) (now fetch_now : Nat) (now_rfc : String)
    (upstream : Except TflError (List Arrival)) (arrivals : List Arrival)
    (hfetch : (fetch_arrivals_from_tfl cache config.cache_ttl now fetch_now upstream).result
        = Except.ok arrivals)
    (hne : apply_route_filter routes arrivals ≠ []) :
    ∃ first rest,
      sort_by_time_to_station (apply_route_filter routes arrivals)
        = first :: rest ∧
      next_bus_summary routes limit config cache now fetch_now now_rfc upstream
        = Except.ok
            { stop_id := first.naptan_id
              stop_name := first.station_name
              last_updated := first.timestamp
              services := ((first :: rest).take (limit.getD 100)).map
                summary_bus_of } ∧
      (((first :: rest).take (limit.getD 100)).map summary_bus_of).length
        = min (limit.getD 100) (first :: rest).length := by
  cases hs : sort_by_time_to_station (apply_route_filter routes arrivals) with
  | nil =>
    exfalso
    have hlen := (sort_by_time_to_station_perm
      (apply_route_filter routes arrivals)).length_eq
    rw [hs] at hlen
    exact hne (List.eq_nil_of_length_eq_zero hlen.symm)
  | cons first rest =>
    refine ⟨first, rest, rfl, ?_, ?_⟩
    · have he : (apply_route_filter routes arrivals).isEmpty = false := by
        cases hl : apply_route_filter routes arrivals with
        | nil => exact absurd hl hne
        | cons x xs => rfl
      rw [next_bus_summary_fetch_ok routes limit config cache now fetch_now
          now_rfc upstream arrivals hfetch,
        if_neg (by rw [he]; exact Bool.false_ne_true), hs]
      rfl
    · rw [List.length_map, List.length_take]

/-- Witness for C9: two arrivals, limit 1; the soonest one (time 50)
supplies the top-level fields and the single service. -/
theorem c9_witness :
    ∃ first rest,
      sort_by_time_to_station (apply_route_filter none
          [mkArrival "25" 500, mkArrival "25" 50])
        = first :: rest ∧
      next_bus_summary none (some 1) sampleConfig none 0 0 "now"
          (Except.ok [mkArrival "25" 500, mkArrival "25" 50])
        = Except.ok
            { stop_id := first.naptan_id
              stop_name := first.station_name
              last_updated := first.timestamp
              services := ((first :: rest).take ((some 1).getD 100)).map
                summary_bus_of } ∧
      (((first :: rest).take ((some 1).getD 100)).map summary_bus_of).length
        = min ((some 1).getD 100) (first :: rest).length :=
  c9_summary_projection none (some 1) sampleConfig none 0 0 "now"
    (Except.ok [mkArrival "25" 500, mkArrival "25" 50])
    [mkArrival "25" 500, mkArrival "25" 50] rfl (by decide)

/-- C10, counterexample: an arrival whose line name is a single space is
NOT an empty line name, yet with the present-but-empty routes parameter
the filter keeps it (its trimmed, lower-cased line name is empty), so the
filtered list is non-empty — refuting the claim's final clause for
arrival sets with no empty line names. -/
theorem c10_counterexample :
    (mkArrival " " 100).line_name ≠ "" ∧
    filter_arrivals_by_route [mkArrival " " 100] "" = [mkArrival " " 100] :=
  ⟨by decide, rfl⟩

/-- C10 (amended): a present-but-empty routes string splits into the
single empty token, so the filter keeps exactly the Arrivals whose
trimmed, lower-cased line name is empty (it does not behave like the
absent filter); for every arrival set in which every Arrival's TRIMMED
line name is non-empty, the result is the empty list. -/
theorem c10_empty_routes_filter (arrivals : List Arrival) :
    splitComma (strLower "") = [""] ∧
    filter_arrivals_by_route arrivals ""
      = arrivals.filter (fun a => strLower (strTrim a.line_name) == "") ∧
    ((∀ a ∈ arrivals, strTrim a.line_name ≠ "") →
      filter_arrivals_by_route arrivals "" = []) := by
  have hfilter : filter_arrivals_by_route arrivals ""
      = arrivals.filter (fun a => strLower (strTrim a.line_name) == "") := by
    rw [filter_arrivals_by_route_eq]
    apply List.filter_congr
    intro a _
    show ((strLower (strTrim a.line_name) == "") || false)
        = (strLower (strTrim a.line_name) == "")
    exact Bool.or_false _
  refine ⟨rfl, hfilter, fun h => ?_⟩
  rw [hfilter]
  apply List.filter_eq_nil_iff.mpr
  intro a ha
  simp only [beq_iff_eq]
  intro hlow
  exact h a ha ((strLower_eq_empty_iff (strTrim a.line_name)).mp hlow)

/-- Witness for C10 on a one-arrival set with non-blank line name "25". -/
theorem c10_witness :
    filter_arrivals_by_route [mkArrival "25" 100] "" = [] :=
  (c10_empty_routes_filter [mkArrival "25" 100]).2.2 (by decide)

end TflApi
